import Mathlib

/-!
Shallow embedding of `src/v1.go` (youtube-notification) and proofs about it.

The Go program polls the YouTube statistics API for a channel's subscriber
count and notifies downstream sinks on change.  We embed:

  * the configuration struct and the `init` required-field validation,
  * the OAuth2 callback handler `handleOAuth2Callback`,
  * the token persistence `saveToken` (fatal on file-create failure),
  * one iteration of the polling loop `monitorSubscriberCount`, as a step
    function from an explicit program state and a per-tick environment
    (clock, refresh outcome, file-system outcome, fetch outcome, delivery
    outcomes) to an event trace plus the next state (`none` = the process
    terminated via `log.Fatalf`),
  * the notifiers `sendWebhookNotification` / `sendTelegramNotification`.

Go `uint64` counts are modelled as `Nat`: the program only compares counts
for equality and never does arithmetic on them, so no wrap-around can occur.
Unix times are modelled as `Int`.
-/

namespace YT

/-- `Config` from src/v1.go lines 22-31.  A missing YAML field decodes to the
Go zero value: `""` for strings, `[]` for the list, `0` for the int. -/
structure Config where
  clientID : String
  clientSecret : String
  redirectURL : String
  webhookURL : String
  channelID : String
  botKey : String
  chatIDs : List String
  sleepTime : Int
  deriving DecidableEq

/-- An OAuth2 token as used by the program: access/refresh tokens and an
expiry instant (`oauth2.Token`). -/
structure Token where
  accessToken : String
  refreshToken : String
  expiry : Int
  deriving DecidableEq

/-- `token.Expiry.Before(time.Now())` (src/v1.go line 156). -/
def Token.expired (t : Token) (now : Int) : Bool :=
  decide (t.expiry < now)

/-- Outcome of the statistics call `call.Do()` plus the `len(response.Items)`
check (src/v1.go lines 177-188). -/
inductive FetchOutcome where
  | transportError
  | zeroItems
  | ok (count : Nat)
  deriving DecidableEq

/-- Observable actions of one loop iteration, in program order. -/
inductive Event where
  | sleep (secs : Int)
  | lockToken
  | unlockToken
  | refreshAttempt
  | saveTokenFile (t : Token)
  | fetchAttempt (channelID : String)
  | lockCount
  | unlockCount
  | updateCount (n : Nat)
  | notifierCall (n : Nat)
  | telegramAttempt (chatID : String) (n : Nat)
  | webhookPost (body : String)
  deriving DecidableEq

/-- Per-tick external environment: the clock, the identity provider's answer
to a refresh, whether `os.Create("token.json")` succeeds, whether
`youtube.New` succeeds, the statistics fetch outcome, and per-chat-id
delivery outcomes for `client.Do` in the Telegram sender. -/
structure TickEnv where
  now : Int
  refreshResult : Option Token
  saveCreateOk : Bool
  serviceOk : Bool
  fetch : FetchOutcome
  deliverOk : String → Bool

/-- Mutable program state: the package-level `token`, `latestCount` (a
`uint64`, so its Go zero value is `0`), and the contents history of
`token.json` (each `saveToken` appends the token it wrote). -/
structure AppState where
  token : Option Token
  latestCount : Nat
  savedTokens : List Token
  deriving DecidableEq

/-- State at process start: `token` as loaded by `loadToken` (or `nil`),
`latestCount` at its `uint64` zero value `0`. -/
def initialState (loaded : Option Token) : AppState :=
  { token := loaded, latestCount := 0, savedTokens := [] }

/-- src/v1.go lines 139-142: `sleepTime := config.SleepTime; if sleepTime == 0
{ sleepTime = 60 }`.  Only an exact zero is replaced by the default. -/
def effectiveSleepTime (configured : Int) : Int :=
  if configured = 0 then 60 else configured

/-- The JSON body `json.Marshal` produces for
`map\x7bstring\x7d "subscriber_count": N` (src/v1.go lines 204-207). -/
def webhookBody (n : Nat) : String :=
  "\x7b\"subscriber_count\":" ++ toString n ++ "\x7d"

/-- `sendWebhookNotification` (src/v1.go lines 201-219): one POST of the JSON
body to the configured URL.  (Response-status handling only logs.)  Note this
function is never called by the polling loop: the call site at line 194 is
commented out. -/
def sendWebhookNotification (n : Nat) : List Event :=
  [Event.webhookPost (webhookBody n)]

/-- `sendTelegramNotification` (src/v1.go lines 221-253): iterates over the
configured chat ids in order, issuing one sendMessage request per id; on a
`client.Do` error it prints the error and RETURNS, abandoning the remaining
chat ids. -/
def sendTelegramNotification (chatIDs : List String) (d : String → Bool)
    (n : Nat) : List Event :=
  match chatIDs with
  | [] => []
  | id :: rest =>
    if d id then
      Event.telegramAttempt id n :: sendTelegramNotification rest d n
    else
      [Event.telegramAttempt id n]

/-- src/v1.go lines 189-197: under `latestCountMutex`, compare the fetched
count with `latestCount`; when different, assign `latestCount` and then call
`sendTelegramNotification` (the webhook call is commented out), all before
unlocking.  Returns the trace of the locked section and the new
`latestCount`. -/
def countPhase (cfg : Config) (d : String → Bool) (latest c : Nat) :
    List Event × Nat :=
  if c ≠ latest then
    (Event.lockCount :: Event.updateCount c :: Event.notifierCall c ::
      (sendTelegramNotification cfg.chatIDs d c ++ [Event.unlockCount]), c)
  else
    ([Event.lockCount, Event.unlockCount], latest)

/-- src/v1.go lines 170-197: the part of a tick after the token mutex is
released — `youtube.New`, the statistics call, and the count phase.  The
state's token and saved-token history are untouched here. -/
def tickAfterCred (cfg : Config) (s : AppState) (env : TickEnv) :
    List Event × Option AppState :=
  if env.serviceOk then
    match env.fetch with
    | FetchOutcome.transportError => ([Event.fetchAttempt cfg.channelID], some s)
    | FetchOutcome.zeroItems => ([Event.fetchAttempt cfg.channelID], some s)
    | FetchOutcome.ok c =>
      let cp := countPhase cfg env.deliverOk s.latestCount c
      (Event.fetchAttempt cfg.channelID :: cp.1,
        some { token := s.token, latestCount := cp.2,
               savedTokens := s.savedTokens })
  else
    ([], some s)

/-- One iteration of the `for` loop in `monitorSubscriberCount`
(src/v1.go lines 144-198): sleep, lock the token mutex, skip if no token,
refresh (and persist) if expired, unlock, then fetch and compare.  Result
state `none` models process termination by `log.Fatalf` inside `saveToken`
when `os.Create` fails (src/v1.go lines 129-136). -/
def tick (cfg : Config) (s : AppState) (env : TickEnv) :
    List Event × Option AppState :=
  let sleepEv := Event.sleep (effectiveSleepTime cfg.sleepTime)
  match s.token with
  | none => ([sleepEv, Event.lockToken, Event.unlockToken], some s)
  | some tok =>
    if tok.expired env.now then
      match env.refreshResult with
      | none =>
        ([sleepEv, Event.lockToken, Event.refreshAttempt, Event.unlockToken],
         some s)
      | some t' =>
        if env.saveCreateOk then
          let s' : AppState :=
            { token := some t', latestCount := s.latestCount,
              savedTokens := s.savedTokens ++ [t'] }
          let r := tickAfterCred cfg s' env
          (sleepEv :: Event.lockToken :: Event.refreshAttempt ::
            Event.saveTokenFile t' :: Event.unlockToken :: r.1, r.2)
        else
          ([sleepEv, Event.lockToken, Event.refreshAttempt], none)
    else
      let r := tickAfterCred cfg s env
      (sleepEv :: Event.lockToken :: Event.unlockToken :: r.1, r.2)

/-- Runs a sequence of ticks, concatenating traces; stops when the process
terminated. -/
def run (cfg : Config) (s : AppState) (envs : List TickEnv) :
    List Event × Option AppState :=
  match envs with
  | [] => ([], some s)
  | env :: rest =>
    match tick cfg s env with
    | (evs, none) => (evs, none)
    | (evs, some s') =>
      let r := run cfg s' rest
      (evs ++ r.1, r.2)

/-- Whether a tick from state `s` under `env` actually performs the
statistics call: a token is present, it is fresh or was refreshed and
persisted successfully, and `youtube.New` succeeded. -/
def fetchReached (s : AppState) (env : TickEnv) : Bool :=
  match s.token with
  | none => false
  | some tok =>
    if tok.expired env.now then
      match env.refreshResult with
      | none => false
      | some _ => env.saveCreateOk && env.serviceOk
    else
      env.serviceOk

/-- The counts passed to the notifier (the `sendTelegramNotification` call
site, line 195) in a trace. -/
def notifierCalls (evs : List Event) : List Nat :=
  evs.filterMap fun e =>
    match e with
    | Event.notifierCall n => some n
    | _ => none

/-- The webhook POST bodies in a trace. -/
def webhookPosts (evs : List Event) : List String :=
  evs.filterMap fun e =>
    match e with
    | Event.webhookPost b => some b
    | _ => none

/-- The chat ids for which a sendMessage request was issued, in order. -/
def telegramAttempts (evs : List Event) : List String :=
  evs.filterMap fun e =>
    match e with
    | Event.telegramAttempt id _ => some id
    | _ => none

/-- The required-field validation in `init` (src/v1.go lines 58-60): the
process panics iff one of ClientID, ClientSecret, RedirectURL, WebhookURL,
ChannelID is empty.  BotKey, ChatIDs and SleepTime are not checked. -/
def initPanics (c : Config) : Bool :=
  c.clientID == "" || c.clientSecret == "" || c.redirectURL == "" ||
    c.webhookURL == "" || c.channelID == ""

/-- The hardcoded anti-forgery state (src/v1.go line 37). -/
def stateString : String := "randomstatestring"

/-- Result of `handleOAuth2Callback`: an HTTP response together with the
resulting token state and persistence history, or process termination
(`log.Fatalf` in `saveToken`). -/
inductive CallbackResult where
  | response (status : Nat) (tok : Option Token) (saved : List Token)
  | fatal
  deriving DecidableEq

/-- `handleOAuth2Callback` (src/v1.go lines 95-116): 400 on state mismatch,
500 on exchange failure (token untouched in both cases); on success
`saveToken` runs first (fatal if `os.Create` fails), then the token is
replaced under the mutex and a 200 page is written. -/
def handleOAuth2Callback (qstate code expected : String)
    (exchange : String → Option Token) (createOk : Bool)
    (tok : Option Token) (saved : List Token) : CallbackResult :=
  if qstate ≠ expected then
    CallbackResult.response 400 tok saved
  else
    match exchange code with
    | none => CallbackResult.response 500 tok saved
    | some t =>
      if createOk then
        CallbackResult.response 200 (some t) (saved ++ [t])
      else
        CallbackResult.fatal

/-! Concrete fixtures used by witnesses and counterexamples. -/

/-- A fully populated configuration (scenario A uses `sleep_time: 5`). -/
def cfgA : Config :=
  { clientID := "id", clientSecret := "secret",
    redirectURL := "http://localhost:8080/oauth2callback",
    webhookURL := "http://example.com/hook", channelID := "UC123",
    botKey := "botkey", chatIDs := ["chat1", "chat2"], sleepTime := 5 }

/-- A token whose expiry lies in the future of the fixture clock `now = 0`. -/
def freshTok : Token :=
  { accessToken := "at", refreshToken := "rt", expiry := 1000 }

/-- A token whose expiry lies in the past of the fixture clock `now = 0`. -/
def staleTok : Token :=
  { accessToken := "old", refreshToken := "rt", expiry := -10 }

/-- The token the identity provider hands back on a successful refresh. -/
def renewedTok : Token :=
  { accessToken := "new", refreshToken := "rt", expiry := 2000 }

/-- A benign tick environment whose statistics fetch returns `c`. -/
def envFetch (c : Nat) : TickEnv :=
  { now := 0, refreshResult := none, saveCreateOk := true, serviceOk := true,
    fetch := FetchOutcome.ok c, deliverOk := fun _ => true }

/-- A tick environment where the refresh succeeds and the fetch returns 100. -/
def envRefresh : TickEnv :=
  { now := 0, refreshResult := some renewedTok, saveCreateOk := true,
    serviceOk := true, fetch := FetchOutcome.ok 100,
    deliverOk := fun _ => true }

/-- A tick environment where the refresh fails. -/
def envRefreshFail : TickEnv :=
  { envRefresh with refreshResult := none }

/-- A tick environment where `os.Create("token.json")` fails. -/
def envSaveFail : TickEnv :=
  { envRefresh with saveCreateOk := false }

/-! Helper lemmas about the notifiers and the tick. -/

theorem notifierCall_not_mem_telegram (ids : List String) (d : String → Bool)
    (m n : Nat) :
    Event.notifierCall n ∉ sendTelegramNotification ids d m := by
  induction ids with
  | nil => simp [sendTelegramNotification]
  | cons id rest ih =>
    simp only [sendTelegramNotification]
    split
    · simp [ih]
    · simp

theorem notifierCalls_telegram (ids : List String) (d : String → Bool)
    (m : Nat) :
    notifierCalls (sendTelegramNotification ids d m) = [] := by
  induction ids with
  | nil => simp [sendTelegramNotification, notifierCalls]
  | cons id rest ih =>
    simp only [sendTelegramNotification]
    split
    · simpa [notifierCalls] using ih
    · simp [notifierCalls]

theorem tickAfterCred_snd (cfg : Config) (s : AppState) (env : TickEnv) :
    ∃ s', (tickAfterCred cfg s env).2 = some s' ∧ s'.token = s.token ∧
      s'.savedTokens = s.savedTokens := by
  unfold tickAfterCred
  split
  · cases env.fetch with
    | transportError => exact ⟨s, rfl, rfl, rfl⟩
    | zeroItems => exact ⟨s, rfl, rfl, rfl⟩
    | ok c => exact ⟨_, rfl, rfl, rfl⟩
  · exact ⟨s, rfl, rfl, rfl⟩

theorem tickAfterCred_notify_iff (cfg : Config) (s : AppState) (env : TickEnv)
    (n : Nat) :
    Event.notifierCall n ∈ (tickAfterCred cfg s env).1 ↔
      env.serviceOk = true ∧ env.fetch = FetchOutcome.ok n ∧
        n ≠ s.latestCount := by
  cases hsvc : env.serviceOk with
  | false => simp [tickAfterCred, hsvc]
  | true =>
    cases hf : env.fetch with
    | transportError => simp [tickAfterCred, hsvc, hf]
    | zeroItems => simp [tickAfterCred, hsvc, hf]
    | ok c =>
      by_cases hc : c = s.latestCount
      · subst hc
        simp [tickAfterCred, hsvc, hf, countPhase]
        exact fun h => h.symm
      · simp [tickAfterCred, hsvc, hf, countPhase, hc,
          notifierCall_not_mem_telegram]
        constructor
        · rintro rfl
          exact ⟨rfl, hc⟩
        · rintro ⟨h, _⟩
          exact h.symm

theorem tick_notify_iff (cfg : Config) (s : AppState) (env : TickEnv)
    (n : Nat) :
    Event.notifierCall n ∈ (tick cfg s env).1 ↔
      fetchReached s env = true ∧ env.fetch = FetchOutcome.ok n ∧
        n ≠ s.latestCount := by
  cases htok : s.token with
  | none => simp [tick, fetchReached, htok]
  | some tok =>
    cases hexp : tok.expired env.now with
    | false =>
      have h := tickAfterCred_notify_iff cfg s env n
      simp [tick, fetchReached, htok, hexp, h]
    | true =>
      cases href : env.refreshResult with
      | none => simp [tick, fetchReached, htok, hexp, href]
      | some t' =>
        cases hsave : env.saveCreateOk with
        | false => simp [tick, fetchReached, htok, hexp, href, hsave]
        | true =>
          have h := tickAfterCred_notify_iff cfg
            { token := some t', latestCount := s.latestCount,
              savedTokens := s.savedTokens ++ [t'] } env n
          simp only at h
          simp [tick, fetchReached, htok, hexp, href, hsave, h]

theorem tickAfterCred_latest_of_fail (cfg : Config) (s : AppState)
    (env : TickEnv)
    (hf : env.fetch = FetchOutcome.transportError ∨
          env.fetch = FetchOutcome.zeroItems) :
    (tickAfterCred cfg s env).2 = some s := by
  rcases hf with hf | hf <;>
    cases hsvc : env.serviceOk <;> simp [tickAfterCred, hsvc, hf]

theorem tick_latest_of_fetch_fail (cfg : Config) (s : AppState) (env : TickEnv)
    (hf : env.fetch = FetchOutcome.transportError ∨
          env.fetch = FetchOutcome.zeroItems) :
    ∀ s', (tick cfg s env).2 = some s' → s'.latestCount = s.latestCount := by
  intro s' h
  cases htok : s.token with
  | none =>
    simp [tick, htok] at h
    rw [← h]
  | some tok =>
    cases hexp : tok.expired env.now with
    | false =>
      rw [show (tick cfg s env).2 = (tickAfterCred cfg s env).2 by
        simp [tick, htok, hexp], tickAfterCred_latest_of_fail cfg s env hf] at h
      cases h
      rfl
    | true =>
      cases href : env.refreshResult with
      | none =>
        simp [tick, htok, hexp, href] at h
        rw [← h]
      | some t' =>
        cases hsave : env.saveCreateOk with
        | false => simp [tick, htok, hexp, href, hsave] at h
        | true =>
          rw [show (tick cfg s env).2 =
              (tickAfterCred cfg
                { token := some t', latestCount := s.latestCount,
                  savedTokens := s.savedTokens ++ [t'] } env).2 by
            simp [tick, htok, hexp, href, hsave],
            tickAfterCred_latest_of_fail cfg _ env hf] at h
          cases h
          rfl

theorem tick_head_sleep (cfg : Config) (s : AppState) (env : TickEnv) :
    (tick cfg s env).1.head? =
      some (Event.sleep (effectiveSleepTime cfg.sleepTime)) := by
  cases htok : s.token with
  | none => simp [tick, htok]
  | some tok =>
    cases hexp : tok.expired env.now with
    | false => simp [tick, htok, hexp]
    | true =>
      cases href : env.refreshResult with
      | none => simp [tick, htok, hexp, href]
      | some t' =>
        cases hsave : env.saveCreateOk <;>
          simp [tick, htok, hexp, href, hsave]

theorem notifierCalls_append (a b : List Event) :
    notifierCalls (a ++ b) = notifierCalls a ++ notifierCalls b := by
  simp [notifierCalls, List.filterMap_append]

theorem tickAfterCred_no_change (cfg : Config) (s : AppState) (env : TickEnv)
    (hf : env.fetch = FetchOutcome.ok s.latestCount ∨
          env.fetch = FetchOutcome.transportError ∨
          env.fetch = FetchOutcome.zeroItems) :
    notifierCalls (tickAfterCred cfg s env).1 = [] ∧
      (tickAfterCred cfg s env).2 = some s := by
  rcases hf with hf | hf | hf <;>
    cases hsvc : env.serviceOk <;>
      simp [tickAfterCred, hsvc, hf, countPhase, notifierCalls]

theorem tick_no_change (cfg : Config) (s : AppState) (env : TickEnv)
    (hf : env.fetch = FetchOutcome.ok s.latestCount ∨
          env.fetch = FetchOutcome.transportError ∨
          env.fetch = FetchOutcome.zeroItems) :
    notifierCalls (tick cfg s env).1 = [] ∧
      ∀ s', (tick cfg s env).2 = some s' →
        s'.latestCount = s.latestCount := by
  cases htok : s.token with
  | none =>
    constructor
    · simp [tick, htok, notifierCalls]
    · intro s' h
      simp [tick, htok] at h
      rw [← h]
  | some tok =>
    cases hexp : tok.expired env.now with
    | false =>
      obtain ⟨h1, h2⟩ := tickAfterCred_no_change cfg s env hf
      constructor
      · have hsplit : (tick cfg s env).1 =
            [Event.sleep (effectiveSleepTime cfg.sleepTime), Event.lockToken,
              Event.unlockToken] ++ (tickAfterCred cfg s env).1 := by
          simp [tick, htok, hexp]
        rw [hsplit, notifierCalls_append, h1]
        rfl
      · intro s' h
        rw [show (tick cfg s env).2 = (tickAfterCred cfg s env).2 by
          simp [tick, htok, hexp], h2] at h
        cases h
        rfl
    | true =>
      cases href : env.refreshResult with
      | none =>
        constructor
        · simp [tick, htok, hexp, href, notifierCalls]
        · intro s' h
          simp [tick, htok, hexp, href] at h
          rw [← h]
      | some t' =>
        cases hsave : env.saveCreateOk with
        | false =>
          constructor
          · simp [tick, htok, hexp, href, hsave, notifierCalls]
          · intro s' h
            simp [tick, htok, hexp, href, hsave] at h
        | true =>
          obtain ⟨h1, h2⟩ := tickAfterCred_no_change cfg
            { token := some t', latestCount := s.latestCount,
              savedTokens := s.savedTokens ++ [t'] } env hf
          constructor
          · have hsplit : (tick cfg s env).1 =
                [Event.sleep (effectiveSleepTime cfg.sleepTime),
                  Event.lockToken, Event.refreshAttempt,
                  Event.saveTokenFile t', Event.unlockToken] ++
                  (tickAfterCred cfg
                    { token := some t', latestCount := s.latestCount,
                      savedTokens := s.savedTokens ++ [t'] } env).1 := by
              simp [tick, htok, hexp, href, hsave]
            rw [hsplit, notifierCalls_append, h1]
            rfl
          · intro s' h
            rw [show (tick cfg s env).2 =
                (tickAfterCred cfg
                  { token := some t', latestCount := s.latestCount,
                    savedTokens := s.savedTokens ++ [t'] } env).2 by
              simp [tick, htok, hexp, href, hsave], h2] at h
            cases h
            rfl

theorem run_no_renotify (cfg : Config) (c : Nat) (envs : List TickEnv) :
    ∀ s : AppState, s.latestCount = c →
      (∀ e ∈ envs, e.fetch = FetchOutcome.ok c ∨
        e.fetch = FetchOutcome.transportError ∨
        e.fetch = FetchOutcome.zeroItems) →
      notifierCalls (run cfg s envs).1 = [] := by
  induction envs with
  | nil =>
    intro s _ _
    simp [run, notifierCalls]
  | cons env rest ih =>
    intro s hc henv
    have hf : env.fetch = FetchOutcome.ok s.latestCount ∨
        env.fetch = FetchOutcome.transportError ∨
        env.fetch = FetchOutcome.zeroItems := by
      rw [hc]
      exact henv env (by simp)
    obtain ⟨h1, h2⟩ := tick_no_change cfg s env hf
    simp only [run]
    cases htick : tick cfg s env with
    | mk evs os =>
      rw [htick] at h1 h2
      cases os with
      | none => exact h1
      | some s' =>
        have hlat : s'.latestCount = c := by rw [h2 s' rfl, hc]
        have hrest : ∀ e ∈ rest, e.fetch = FetchOutcome.ok c ∨
            e.fetch = FetchOutcome.transportError ∨
            e.fetch = FetchOutcome.zeroItems :=
          fun e he => henv e (by simp [he])
        simp [notifierCalls_append, h1, ih s' hlat hrest]

theorem refreshAttempt_not_mem_telegram (ids : List String)
    (d : String → Bool) (m : Nat) :
    Event.refreshAttempt ∉ sendTelegramNotification ids d m := by
  induction ids with
  | nil => simp [sendTelegramNotification]
  | cons id rest ih =>
    simp only [sendTelegramNotification]
    split
    · simp [ih]
    · simp

theorem refresh_not_mem_tickAfterCred (cfg : Config) (s : AppState)
    (env : TickEnv) :
    Event.refreshAttempt ∉ (tickAfterCred cfg s env).1 := by
  cases hsvc : env.serviceOk with
  | false => simp [tickAfterCred, hsvc]
  | true =>
    cases hf : env.fetch with
    | transportError => simp [tickAfterCred, hsvc, hf]
    | zeroItems => simp [tickAfterCred, hsvc, hf]
    | ok c =>
      by_cases hc : c = s.latestCount
      · simp [tickAfterCred, hsvc, hf, countPhase, hc]
      · simp [tickAfterCred, hsvc, hf, countPhase, hc,
          refreshAttempt_not_mem_telegram]

theorem countPhase_calls (cfg : Config) (d : String → Bool) (latest c : Nat)
    (h : c ≠ latest) :
    notifierCalls (countPhase cfg d latest c).1 = [c] := by
  have h1 : (countPhase cfg d latest c).1 =
      Event.lockCount :: Event.updateCount c :: Event.notifierCall c ::
        (sendTelegramNotification cfg.chatIDs d c ++ [Event.unlockCount]) := by
    simp [countPhase, h]
  rw [h1]
  show c :: notifierCalls
    (sendTelegramNotification cfg.chatIDs d c ++ [Event.unlockCount]) = [c]
  rw [notifierCalls_append, notifierCalls_telegram]
  rfl

theorem tickAfterCred_calls_change (cfg : Config) (s : AppState)
    (env : TickEnv) (c : Nat) (hsvc : env.serviceOk = true)
    (hf : env.fetch = FetchOutcome.ok c) (hc : c ≠ s.latestCount) :
    notifierCalls (tickAfterCred cfg s env).1 = [c] ∧
      (tickAfterCred cfg s env).2 =
        some { token := s.token, latestCount := c,
               savedTokens := s.savedTokens } := by
  constructor
  · have h1 : (tickAfterCred cfg s env).1 =
        Event.fetchAttempt cfg.channelID ::
          (countPhase cfg env.deliverOk s.latestCount c).1 := by
      simp [tickAfterCred, hsvc, hf]
    rw [h1]
    show notifierCalls (countPhase cfg env.deliverOk s.latestCount c).1 = [c]
    exact countPhase_calls cfg env.deliverOk s.latestCount c hc
  · simp [tickAfterCred, hsvc, hf, countPhase, hc]

theorem tick_calls_change (cfg : Config) (s : AppState) (env : TickEnv)
    (c : Nat) (hr : fetchReached s env = true)
    (hf : env.fetch = FetchOutcome.ok c) (hc : c ≠ s.latestCount) :
    notifierCalls (tick cfg s env).1 = [c] ∧
      ∃ s', (tick cfg s env).2 = some s' ∧ s'.latestCount = c := by
  cases htok : s.token with
  | none => simp [fetchReached, htok] at hr
  | some tok =>
    cases hexp : tok.expired env.now with
    | false =>
      have hsvc : env.serviceOk = true := by
        simpa [fetchReached, htok, hexp] using hr
      obtain ⟨h1, h2⟩ := tickAfterCred_calls_change cfg s env c hsvc hf hc
      constructor
      · have hsplit : (tick cfg s env).1 =
            [Event.sleep (effectiveSleepTime cfg.sleepTime), Event.lockToken,
              Event.unlockToken] ++ (tickAfterCred cfg s env).1 := by
          simp [tick, htok, hexp]
        rw [hsplit, notifierCalls_append, h1]
        rfl
      · refine ⟨{ token := s.token, latestCount := c,
                   savedTokens := s.savedTokens }, ?_, rfl⟩
        rw [show (tick cfg s env).2 = (tickAfterCred cfg s env).2 by
          simp [tick, htok, hexp]]
        exact h2
    | true =>
      cases href : env.refreshResult with
      | none => simp [fetchReached, htok, hexp, href] at hr
      | some t' =>
        have hsv : env.saveCreateOk = true ∧ env.serviceOk = true := by
          simpa [fetchReached, htok, hexp, href, Bool.and_eq_true] using hr
        obtain ⟨h1, h2⟩ := tickAfterCred_calls_change cfg
          { token := some t', latestCount := s.latestCount,
            savedTokens := s.savedTokens ++ [t'] } env c hsv.2 hf hc
        constructor
        · have hsplit : (tick cfg s env).1 =
              [Event.sleep (effectiveSleepTime cfg.sleepTime),
                Event.lockToken, Event.refreshAttempt,
                Event.saveTokenFile t', Event.unlockToken] ++
                (tickAfterCred cfg
                  { token := some t', latestCount := s.latestCount,
                    savedTokens := s.savedTokens ++ [t'] } env).1 := by
            simp [tick, htok, hexp, href, hsv.1]
          rw [hsplit, notifierCalls_append, h1]
          rfl
        · refine ⟨{ token := some t', latestCount := c,
                     savedTokens := s.savedTokens ++ [t'] }, ?_, rfl⟩
          rw [show (tick cfg s env).2 =
              (tickAfterCred cfg
                { token := some t', latestCount := s.latestCount,
                  savedTokens := s.savedTokens ++ [t'] } env).2 by
            simp [tick, htok, hexp, href, hsv.1]]
          exact h2

theorem tick_change_trace (cfg : Config) (s : AppState) (env : TickEnv)
    (c : Nat) (hr : fetchReached s env = true)
    (hf : env.fetch = FetchOutcome.ok c) (hc : c ≠ s.latestCount) :
    ∃ pre, (tick cfg s env).1 =
      pre ++ Event.lockCount :: Event.updateCount c :: Event.notifierCall c ::
        (sendTelegramNotification cfg.chatIDs env.deliverOk c ++
          [Event.unlockCount]) ∧
      ∀ m, Event.notifierCall m ∉ pre := by
  cases htok : s.token with
  | none => simp [fetchReached, htok] at hr
  | some tok =>
    cases hexp : tok.expired env.now with
    | false =>
      have hsvc : env.serviceOk = true := by
        simpa [fetchReached, htok, hexp] using hr
      refine ⟨[Event.sleep (effectiveSleepTime cfg.sleepTime), Event.lockToken,
        Event.unlockToken, Event.fetchAttempt cfg.channelID], ?_, by simp⟩
      simp [tick, htok, hexp, tickAfterCred, hsvc, hf, countPhase, hc]
    | true =>
      cases href : env.refreshResult with
      | none => simp [fetchReached, htok, hexp, href] at hr
      | some t' =>
        have hsv : env.saveCreateOk = true ∧ env.serviceOk = true := by
          simpa [fetchReached, htok, hexp, href, Bool.and_eq_true] using hr
        refine ⟨[Event.sleep (effectiveSleepTime cfg.sleepTime),
          Event.lockToken, Event.refreshAttempt, Event.saveTokenFile t',
          Event.unlockToken, Event.fetchAttempt cfg.channelID], ?_, by simp⟩
        simp [tick, htok, hexp, href, hsv.1, tickAfterCred, hsv.2, hf,
          countPhase, hc]

/-! Claim theorems. -/

/-- Claim C1: on every poll tick a notification is sent iff the tick's
statistics fetch is performed and succeeds with a count that differs from
the stored `latestCount`; a tick whose fetch fails (transport error or zero
matching channels) leaves the stored last-known count unchanged, so a later
real change is still detected. -/
theorem claimC1_notification_iff_changed_count (cfg : Config) (s : AppState)
    (env : TickEnv) (n : Nat) :
    (Event.notifierCall n ∈ (tick cfg s env).1 ↔
      fetchReached s env = true ∧ env.fetch = FetchOutcome.ok n ∧
        n ≠ s.latestCount) ∧
    ((env.fetch = FetchOutcome.transportError ∨
        env.fetch = FetchOutcome.zeroItems) →
      ∀ s', (tick cfg s env).2 = some s' →
        s'.latestCount = s.latestCount) :=
  ⟨tick_notify_iff cfg s env n,
   fun hf => tick_latest_of_fetch_fail cfg s env hf⟩

/-- Claim C1 witness: from the start state a fetch of 100 (differing from
the stored 0) produces a notifier call. -/
theorem claimC1_witness :
    Event.notifierCall 100 ∈
      (tick cfgA (initialState (some freshTok)) (envFetch 100)).1 :=
  (claimC1_notification_iff_changed_count cfgA (initialState (some freshTok))
    (envFetch 100) 100).1.mpr (by decide)

/-- Claim C2 counterexample: at startup `latestCount` is the `uint64` zero
value `0`, not a sentinel; a first successful fetch returning 0 is compared
equal to it and produces no notification, contradicting the claim that every
first fetched value, zero included, notifies. -/
theorem claimC2_counterexample_first_fetch_zero :
    fetchReached (initialState (some freshTok)) (envFetch 0) = true ∧
    (envFetch 0).fetch = FetchOutcome.ok 0 ∧
    notifierCalls
      (tick cfgA (initialState (some freshTok)) (envFetch 0)).1 = [] := by
  refine ⟨rfl, rfl, rfl⟩

/-- Claim C2 (amended): the first successful statistics fetch after process
start triggers exactly one notification iff the fetched value is nonzero;
a first fetch equal to 0 triggers none, because the initial stored value is
the `uint64` zero value `0` and is not distinguishable from a real count
of 0. -/
theorem claimC2_amended_first_fetch_nonzero (cfg : Config)
    (loaded : Option Token) (env : TickEnv) (c : Nat)
    (hr : fetchReached (initialState loaded) env = true)
    (hf : env.fetch = FetchOutcome.ok c) :
    notifierCalls (tick cfg (initialState loaded) env).1 =
      if c = 0 then [] else [c] := by
  by_cases hc : c = 0
  · subst hc
    rw [if_pos rfl]
    exact (tick_no_change cfg (initialState loaded) env (Or.inl hf)).1
  · rw [if_neg hc]
    exact (tick_calls_change cfg (initialState loaded) env c hr hf hc).1

/-- Claim C2 witness: a first fetch of 7 notifies exactly once with 7. -/
theorem claimC2_witness :
    notifierCalls
      (tick cfgA (initialState (some freshTok)) (envFetch 7)).1 = [7] :=
  (claimC2_amended_first_fetch_nonzero cfgA (some freshTok) (envFetch 7) 7
    rfl rfl).trans (by decide)

/-- Claim C3 counterexample: in scenario A (polls returning 100, 100, 101
from startup) the loop issues zero webhook POSTs — the call to
`sendWebhookNotification` at src/v1.go line 194 is commented out — even
though two changes are detected and notified (via Telegram); the claim's
"exactly one POST with body \x7b"subscriber_count":100\x7d on the first
poll" is false. -/
theorem claimC3_counterexample_no_webhook_posts :
    notifierCalls (run cfgA (initialState (some freshTok))
      [envFetch 100, envFetch 100, envFetch 101]).1 = [100, 101] ∧
    webhookPosts (run cfgA (initialState (some freshTok))
      [envFetch 100, envFetch 100, envFetch 101]).1 = [] := by
  refine ⟨rfl, rfl⟩

/-- Claim C3 (amended): in scenario A the loop notifies via the Telegram
broadcast instead — the first poll (100) yields exactly one notifier
invocation reaching both configured chats, the unchanged second poll yields
none, the third (101) exactly one more — and zero webhook POSTs ever occur,
because the webhook call site in the loop is commented out;
`sendWebhookNotification` itself, when invoked with count N, issues exactly
one POST whose body is the JSON object with the new count, e.g.
\x7b"subscriber_count":100\x7d for N = 100. -/
theorem claimC3_amended_telegram_only :
    notifierCalls (tick cfgA (initialState (some freshTok))
      (envFetch 100)).1 = [100] ∧
    telegramAttempts (tick cfgA (initialState (some freshTok))
      (envFetch 100)).1 = ["chat1", "chat2"] ∧
    notifierCalls (run cfgA (initialState (some freshTok))
      [envFetch 100, envFetch 100, envFetch 101]).1 = [100, 101] ∧
    webhookPosts (run cfgA (initialState (some freshTok))
      [envFetch 100, envFetch 100, envFetch 101]).1 = [] ∧
    (∀ n : Nat, webhookPosts (sendWebhookNotification n) = [webhookBody n]) ∧
    webhookBody 100 = "\x7b\"subscriber_count\":100\x7d" := by
  refine ⟨rfl, rfl, rfl, rfl, fun n => rfl, by decide⟩

/-- Claim C3 witness: invoking the webhook notifier directly with 42 yields
exactly one POST with the JSON body for 42. -/
theorem claimC3_witness :
    webhookPosts (sendWebhookNotification 42) = [webhookBody 42] :=
  claimC3_amended_telegram_only.2.2.2.2.1 42

/-- Claim C4 counterexample: with chat ids ["chat1", "chat2"] and the first
delivery failing, only "chat1" is attempted: the `return` on the `client.Do`
error (src/v1.go line 249) aborts the whole broadcast, so "chat2" never
receives its message, contradicting the claimed per-destination failure
isolation. -/
theorem claimC4_counterexample_first_failure_aborts :
    sendTelegramNotification ["chat1", "chat2"] (fun id => id != "chat1") 7 =
      [Event.telegramAttempt "chat1" 7] := by
  rfl

/-- Claim C4 (amended): the chat broadcast is sequential and stops at the
first failed delivery: every destination before the first failure is
attempted in order, the failing destination itself is attempted, and no
destination after it is attempted; only when every delivery succeeds is
every configured destination attempted, exactly once each and in order. -/
theorem claimC4_amended_stops_at_first_failure (d : String → Bool) (n : Nat) :
    (∀ pre suf id, (∀ x ∈ pre, d x = true) → d id = false →
      telegramAttempts (sendTelegramNotification (pre ++ id :: suf) d n) =
        pre ++ [id]) ∧
    (∀ ids, (∀ x ∈ ids, d x = true) →
      telegramAttempts (sendTelegramNotification ids d n) = ids) := by
  constructor
  · intro pre
    induction pre with
    | nil =>
      intro suf id _ hid
      simp [sendTelegramNotification, hid, telegramAttempts]
    | cons x pre ih =>
      intro suf id hpre hid
      have hx : d x = true := hpre x (by simp)
      have hrest : ∀ y ∈ pre, d y = true := fun y hy => hpre y (by simp [hy])
      have hih := ih suf id hrest hid
      simp only [telegramAttempts] at hih ⊢
      simp [sendTelegramNotification, hx, hih]
  · intro ids
    induction ids with
    | nil =>
      intro _
      rfl
    | cons x rest ih =>
      intro hall
      have hx : d x = true := hall x (by simp)
      have hrest : ∀ y ∈ rest, d y = true := fun y hy => hall y (by simp [hy])
      have hih := ih hrest
      simp only [telegramAttempts] at hih ⊢
      simp [sendTelegramNotification, hx, hih]

/-- Claim C4 witness: with both deliveries succeeding, both chats are
attempted in order. -/
theorem claimC4_witness :
    telegramAttempts (sendTelegramNotification ["chat1", "chat2"]
      (fun _ => true) 7) = ["chat1", "chat2"] :=
  (claimC4_amended_stops_at_first_failure (fun _ => true) 7).2
    ["chat1", "chat2"] (fun _ _ => rfl)

/-- Claim C5: when the loop holds an expired credential it performs exactly
one refresh attempt before using it; on refresh success the refreshed token
replaces the held one and is written to `token.json` before the token mutex
is released (the `saveTokenFile` event precedes `unlockToken` in the trace);
on refresh failure the stale token stays in place and the rest of the tick
is skipped, so the next tick retries from the same state. -/
theorem claimC5_expired_refresh_once_persist_before_unlock (cfg : Config)
    (s : AppState) (env : TickEnv) (tok : Token) (htok : s.token = some tok)
    (hexp : tok.expired env.now = true) :
    (tick cfg s env).1.count Event.refreshAttempt = 1 ∧
    (∀ t', env.refreshResult = some t' → env.saveCreateOk = true →
      (∃ rest, (tick cfg s env).1 =
        Event.sleep (effectiveSleepTime cfg.sleepTime) :: Event.lockToken ::
          Event.refreshAttempt :: Event.saveTokenFile t' ::
          Event.unlockToken :: rest) ∧
      (∃ s', (tick cfg s env).2 = some s' ∧ s'.token = some t' ∧
        s'.savedTokens = s.savedTokens ++ [t'])) ∧
    (env.refreshResult = none →
      (tick cfg s env).1 = [Event.sleep (effectiveSleepTime cfg.sleepTime),
        Event.lockToken, Event.refreshAttempt, Event.unlockToken] ∧
      (tick cfg s env).2 = some s) := by
  refine ⟨?_, ?_, ?_⟩
  · cases href : env.refreshResult with
    | none =>
      rw [show (tick cfg s env).1 =
          [Event.sleep (effectiveSleepTime cfg.sleepTime), Event.lockToken,
            Event.refreshAttempt, Event.unlockToken] by
        simp [tick, htok, hexp, href]]
      rfl
    | some t' =>
      cases hsave : env.saveCreateOk with
      | false =>
        rw [show (tick cfg s env).1 =
            [Event.sleep (effectiveSleepTime cfg.sleepTime), Event.lockToken,
              Event.refreshAttempt] by
          simp [tick, htok, hexp, href, hsave]]
        rfl
      | true =>
        rw [show (tick cfg s env).1 =
            [Event.sleep (effectiveSleepTime cfg.sleepTime), Event.lockToken,
              Event.refreshAttempt, Event.saveTokenFile t',
              Event.unlockToken] ++
              (tickAfterCred cfg
                { token := some t', latestCount := s.latestCount,
                  savedTokens := s.savedTokens ++ [t'] } env).1 by
          simp [tick, htok, hexp, href, hsave]]
        rw [List.count_append,
          List.count_eq_zero.mpr (refresh_not_mem_tickAfterCred cfg
            { token := some t', latestCount := s.latestCount,
              savedTokens := s.savedTokens ++ [t'] } env)]
        rfl
  · intro t' href hsave
    obtain ⟨s'', h2, h3, h4⟩ := tickAfterCred_snd cfg
      { token := some t', latestCount := s.latestCount,
        savedTokens := s.savedTokens ++ [t'] } env
    constructor
    · refine ⟨(tickAfterCred cfg
        { token := some t', latestCount := s.latestCount,
          savedTokens := s.savedTokens ++ [t'] } env).1, ?_⟩
      simp [tick, htok, hexp, href, hsave]
    · refine ⟨s'', ?_, ?_, ?_⟩
      · rw [show (tick cfg s env).2 =
            (tickAfterCred cfg
              { token := some t', latestCount := s.latestCount,
                savedTokens := s.savedTokens ++ [t'] } env).2 by
          simp [tick, htok, hexp, href, hsave]]
        exact h2
      · rw [h3]
      · rw [h4]
  · intro href
    constructor <;> simp [tick, htok, hexp, href]

/-- Claim C5 witness: from a state holding an expired token, a tick under a
successful-refresh environment performs exactly one refresh attempt and ends
with the renewed token persisted. -/
theorem claimC5_witness :
    (tick cfgA (initialState (some staleTok)) envRefresh).1.count
      Event.refreshAttempt = 1 :=
  (claimC5_expired_refresh_once_persist_before_unlock cfgA
    (initialState (some staleTok)) envRefresh staleTok rfl (by decide)).1

/-- Claim C6: a callback request whose state query parameter differs from
the expected anti-forgery state yields HTTP 400 and leaves both the held
token and the persisted-token history unchanged. -/
theorem claimC6_state_mismatch_400_no_mutation (qstate code expected : String)
    (exchange : String → Option Token) (createOk : Bool) (tok : Option Token)
    (saved : List Token) (h : qstate ≠ expected) :
    handleOAuth2Callback qstate code expected exchange createOk tok saved =
      CallbackResult.response 400 tok saved := by
  simp [handleOAuth2Callback, h]

/-- Claim C6 witness: a concrete mismatched-state callback gets 400 with no
token change and no persistence write. -/
theorem claimC6_witness :
    handleOAuth2Callback "evil" "code" stateString (fun _ => some freshTok)
      true none [] = CallbackResult.response 400 none [] :=
  claimC6_state_mismatch_400_no_mutation "evil" "code" stateString
    (fun _ => some freshTok) true none [] (by decide)

/-- A configuration whose bot key, chat id list and poll interval are absent
(their YAML zero values) while the five checked fields are present. -/
def cfgNoBot : Config :=
  { clientID := "id", clientSecret := "secret", redirectURL := "r",
    webhookURL := "w", channelID := "c", botKey := "", chatIDs := [],
    sleepTime := 0 }

/-- Claim C7 counterexample: a configuration with bot key, chat ids and poll
interval all missing passes the init validation (src/v1.go line 58 checks
only the five string fields), so the process starts anyway — their absence
is not fatal. -/
theorem claimC7_counterexample_missing_botkey_no_panic :
    cfgNoBot.botKey = "" ∧ cfgNoBot.chatIDs = [] ∧ cfgNoBot.sleepTime = 0 ∧
      initPanics cfgNoBot = false := by
  refine ⟨rfl, rfl, rfl, rfl⟩

/-- Claim C7 (amended): the fatal required-field check at startup covers
exactly client id, client secret, redirect url, webhook url and channel id;
bot key, chat ids and poll interval are never inspected, so their absence
does not prevent startup. -/
theorem claimC7_amended_required_fields (c : Config) :
    (initPanics c = true ↔
      (c.clientID = "" ∨ c.clientSecret = "" ∨ c.redirectURL = "" ∨
        c.webhookURL = "" ∨ c.channelID = "")) ∧
    (∀ bk ids st, initPanics
      { c with botKey := bk, chatIDs := ids, sleepTime := st } =
        initPanics c) := by
  constructor
  · simp [initPanics, Bool.or_eq_true, beq_iff_eq]
    tauto
  · intro bk ids st
    rfl

/-- Claim C7 witness: emptying a checked field (client id) of the otherwise
passing configuration makes init panic. -/
theorem claimC7_witness :
    initPanics { cfgNoBot with clientID := "" } = true :=
  (claimC7_amended_required_fields { cfgNoBot with clientID := "" }).1.mpr
    (Or.inl rfl)

/-- A configuration with a negative poll interval. -/
def cfgNegSleep : Config := { cfgA with sleepTime := -5 }

/-- Claim C8 counterexample: with `sleep_time: -5` the tick's opening sleep
is -5 seconds (a negative `time.Sleep`, i.e. no sleep at all), not the
claimed default of 60: only an exact zero falls back to the default
(src/v1.go line 140). -/
theorem claimC8_counterexample_negative_interval :
    (tick cfgNegSleep (initialState (some freshTok)) (envFetch 0)).1.head? =
      some (Event.sleep (-5)) ∧ effectiveSleepTime (-5) = -5 ∧
      ((-5 : Int) ≠ 60) := by
  refine ⟨rfl, rfl, by decide⟩

/-- Claim C8 (amended): every tick begins by sleeping the effective
interval; a configured interval of zero (the YAML absence default) falls
back to 60 seconds, while any nonzero configured value — negative values
included — is used exactly as configured. -/
theorem claimC8_amended_default_only_for_zero (cfg : Config) (s : AppState)
    (env : TickEnv) :
    (tick cfg s env).1.head? =
      some (Event.sleep (effectiveSleepTime cfg.sleepTime)) ∧
    effectiveSleepTime 0 = 60 ∧
    ∀ t : Int, t ≠ 0 → effectiveSleepTime t = t := by
  refine ⟨tick_head_sleep cfg s env, rfl, ?_⟩
  intro t ht
  simp [effectiveSleepTime, ht]

/-- Claim C8 witness: with the scenario-A config (`sleep_time: 5`) the tick
opens with a 5-second sleep, and a nonzero interval of 7 is kept as 7. -/
theorem claimC8_witness :
    (tick cfgA (initialState (some freshTok)) (envFetch 0)).1.head? =
      some (Event.sleep 5) ∧ effectiveSleepTime 7 = 7 :=
  ⟨((claimC8_amended_default_only_for_zero cfgA (initialState (some freshTok))
      (envFetch 0)).1).trans (by decide),
   (claimC8_amended_default_only_for_zero cfgA (initialState (some freshTok))
      (envFetch 0)).2.2 7 (by decide)⟩

/-- Claim C9: both credential-persistence paths are fatal when the
credential file cannot be created: in the OAuth callback a failing
`os.Create` inside `saveToken` terminates the process
(`CallbackResult.fatal`), and in the polling loop's refresh path the tick
ends with no successor state (`none`, process terminated) instead of logging
and continuing with the in-memory credential. -/
theorem claimC9_save_failure_fatal (qstate code expected : String)
    (exchange : String → Option Token) (tok : Option Token)
    (saved : List Token) (t : Token) (cfg : Config) (s : AppState)
    (env : TickEnv) (tokExp t' : Token)
    (h1 : qstate = expected) (h2 : exchange code = some t)
    (h3 : s.token = some tokExp) (h4 : tokExp.expired env.now = true)
    (h5 : env.refreshResult = some t') (h6 : env.saveCreateOk = false) :
    handleOAuth2Callback qstate code expected exchange false tok saved =
      CallbackResult.fatal ∧
    (tick cfg s env).2 = none := by
  constructor
  · simp [handleOAuth2Callback, h1, h2]
  · simp [tick, h3, h4, h5, h6]

/-- Claim C9 witness: a concrete callback with a failing credential-file
write is fatal, and so is a concrete refresh-tick with a failing write. -/
theorem claimC9_witness :
    handleOAuth2Callback stateString "code" stateString
      (fun _ => some freshTok) false none [] = CallbackResult.fatal ∧
    (tick cfgA (initialState (some staleTok)) envSaveFail).2 = none :=
  claimC9_save_failure_fatal stateString "code" stateString
    (fun _ => some freshTok) none [] freshTok cfgA
    (initialState (some staleTok)) envSaveFail staleTok renewedTok rfl rfl
    rfl (by decide) rfl rfl

/-- Claim C10: when a changed count is detected, `latestCount` is assigned
before the notifier is invoked, both inside the same `latestCountMutex`
section (in the trace the `updateCount` event precedes the `notifierCall`
and every per-chat delivery, all between `lockCount` and `unlockCount`); the
delivery outcomes play no part in the state update, so whatever the
deliveries do the stored count has advanced, and later ticks fetching the
same value never notify again. -/
theorem claimC10_update_precedes_notify (cfg : Config) (s : AppState)
    (env : TickEnv) (c : Nat)
    (hr : fetchReached s env = true) (hf : env.fetch = FetchOutcome.ok c)
    (hc : c ≠ s.latestCount) :
    (∃ pre, (tick cfg s env).1 =
        pre ++ Event.lockCount :: Event.updateCount c ::
          Event.notifierCall c ::
          (sendTelegramNotification cfg.chatIDs env.deliverOk c ++
            [Event.unlockCount]) ∧
      ∀ m, Event.notifierCall m ∉ pre) ∧
    (∃ s', (tick cfg s env).2 = some s' ∧ s'.latestCount = c) ∧
    (∀ d : String → Bool, ∃ s',
      (tick cfg s { env with deliverOk := d }).2 = some s' ∧
        s'.latestCount = c) ∧
    (∀ envs : List TickEnv,
      (∀ e ∈ envs, e.fetch = FetchOutcome.ok c ∨
        e.fetch = FetchOutcome.transportError ∨
        e.fetch = FetchOutcome.zeroItems) →
      ∀ s', (tick cfg s env).2 = some s' →
        notifierCalls (run cfg s' envs).1 = []) := by
  refine ⟨tick_change_trace cfg s env c hr hf hc,
    (tick_calls_change cfg s env c hr hf hc).2, ?_, ?_⟩
  · intro d
    exact (tick_calls_change cfg s { env with deliverOk := d } c hr hf hc).2
  · intro envs henvs s' hs'
    obtain ⟨s₀, h₀, hlat⟩ := (tick_calls_change cfg s env c hr hf hc).2
    rw [hs'] at h₀
    cases h₀
    exact run_no_renotify cfg c envs s' hlat henvs

/-- Claim C10 witness: a concrete changed tick advances the stored count to
the fetched value. -/
theorem claimC10_witness :
    ∃ s', (tick cfgA (initialState (some freshTok)) (envFetch 100)).2 =
      some s' ∧ s'.latestCount = 100 :=
  (claimC10_update_precedes_notify cfgA (initialState (some freshTok))
    (envFetch 100) 100 rfl rfl (by decide)).2.1

end YT
